import Mathlib

/-!
Shallow embedding of `src/tradestation_module.py` (class `TradeStation`).

Modelling conventions:
* Instants (`datetime.now()`, `token_expiration`) are integers (seconds).
* The mutable `self.config` dict is a structure whose optional entries
  (`refresh_token`, `access_token`, `id_token`, `token_expiration`) are
  `Option`s; a Python `KeyError` on a missing entry is `Err.keyError`.
* The `token_cache` file is `World.cache : Option TokenResponse`; an absent
  file means `none` (so `os.path.exists` is `isSome`, and `open` on a missing
  file is `Err.fileNotFound`).
* Every outbound side effect (browser launch, token-endpoint POST, cache
  write/read, brokerage HTTP call, `logging.error`) is recorded as an `Event`
  in a trace; raised Python exceptions are the `Except.error` branch.
* The environment's responses for one call (user-pasted code, the two
  token-endpoint JSON bodies, the brokerage HTTP response) are an `Env`
  record; a transport-level `requests` exception is the `Except.error ()`
  branch of the corresponding field.  `.json()` bodies are `TokenResponse`
  records with all-optional fields, so an OAuth error body is a record whose
  token fields are `none`.
* `requests` truthiness (`if not resp`) is `resp.ok`, i.e. status < 400.
* Percent-escaping in `urllib.parse.urlencode` is abstracted: form data is
  kept as an association list.  `headers=None` / `params=None` are modelled
  as the empty association list.
-/

namespace TradeStation

/-- A parsed JSON body from the provider's token endpoint.  All fields are
optional: an error body (for instance an `invalid_grant` response) simply has
every token field `none`. -/
structure TokenResponse where
  access_token : Option String := none
  id_token : Option String := none
  refresh_token : Option String := none
  expires_in : Option Int := none
  deriving Repr, DecidableEq

/-- A brokerage HTTP response: status code and reason phrase. -/
structure HttpResponse where
  status : Nat
  reason : String
  deriving Repr, DecidableEq

/-- `requests.Response.__bool__` / `.ok`: true exactly when the status code is
below 400. -/
def HttpResponse.ok (r : HttpResponse) : Bool := r.status < 400

/-- The `self.config` dict: fixed fields set in `__init__` plus the mutable
token state added by `_refresh` / `_request`. -/
structure Config where
  client_id : String
  secret_key : String
  username : String
  account : String
  base_url : String
  return_uri : String
  refresh_token : Option String := none
  access_token : Option String := none
  id_token : Option String := none
  token_expiration : Option Int := none
  deriving Repr, DecidableEq

/-- In-memory session state: the config dict plus the persistent
`Authorization` default header of `self._s` (the `requests.Session`). -/
structure Session where
  config : Config
  authHeader : Option String := none
  deriving Repr, DecidableEq

/-- Process-external state: the `token_cache` file contents and the current
instant returned by `datetime.now()`. -/
structure World where
  cache : Option TokenResponse
  now : Int
  deriving Repr, DecidableEq

/-- The environment's responses consumed during one gateway call:
the access code the user pastes, the token-endpoint body for the
authorization-code exchange, the token-endpoint body for the refresh
exchange, and the brokerage HTTP response.  `Except.error ()` is a
transport-level `requests` exception. -/
structure Env where
  authCode : String
  authResponse : Except Unit TokenResponse
  refreshResponse : Except Unit TokenResponse
  httpResponse : Except Unit HttpResponse
  deriving Repr

/-- Observable side effects, recorded in order. -/
inductive Event where
  | browserOpen (url : String)
  | tokenPost (data : List (String × String))
  | cacheWrite (r : TokenResponse)
  | cacheRead
  | httpCall (method : String) (path : String)
      (headers : List (String × String)) (params : List (String × String))
  | logError (msg : String)
  deriving Repr, DecidableEq

/-- Raised Python exceptions. -/
inductive Err where
  | keyError (k : String)
  | fileNotFound
  | transportError
  | apiException (msg : String)
  deriving Repr, DecidableEq

/-- Form data joined as `k=v&...`, standing in for `urllib.parse.urlencode`
(percent-escaping abstracted). -/
def urlencode (data : List (String × String)) : String :=
  String.intercalate "&" (data.map (fun kv => kv.1 ++ "=" ++ kv.2))

/-- The authorization-request URL built at the top of `_authenticate`. -/
def authorizeUrl (c : Config) : String :=
  "https://signin.tradestation.com/authorize?" ++
    urlencode [("response_type", "code"),
               ("client_id", c.client_id),
               ("audience", "https://api.tradestation.com"),
               ("redirect_uri", c.return_uri),
               ("scope", "openid offline_access MarketData ReadAccount Trade")]

/-- Form payload of the authorization-code exchange POST in `_authenticate`. -/
def authGrantData (c : Config) (code : String) : List (String × String) :=
  [("grant_type", "authorization_code"),
   ("client_id", c.client_id),
   ("client_secret", c.secret_key),
   ("code", code),
   ("redirect_uri", c.return_uri)]

/-- Form payload of the refresh exchange POST in `_refresh`. -/
def refreshGrantData (c : Config) (rt : String) : List (String × String) :=
  [("grant_type", "refresh_token"),
   ("client_id", c.client_id),
   ("client_secret", c.secret_key),
   ("refresh_token", rt)]

/-- `TradeStation._authenticate`: open the browser on the authorization URL,
read the access code, POST the authorization-code grant, and dump whatever
JSON body came back into `token_cache`.  The source performs no status check:
any body that parses is cached.  A transport-level exception from
`requests.post` propagates and nothing is written. -/
def _authenticate (s : Session) (env : Env) (w : World) :
    List Event × Except Err World :=
  let ev0 := [Event.browserOpen (authorizeUrl s.config),
              Event.tokenPost (authGrantData s.config env.authCode)]
  match env.authResponse with
  | Except.error _ => (ev0, Except.error Err.transportError)
  | Except.ok resp =>
      (ev0 ++ [Event.cacheWrite resp], Except.ok { w with cache := some resp })

/-- `TradeStation._refresh`: POST the refresh grant
(`KeyError` if `refresh_token` is not in the config), then read
`access_token`, `id_token`, `expires_in` out of the body (`KeyError` on a
missing key), set `token_expiration = now + (expires_in - 60)` seconds, and
update the session's default `Authorization` header. -/
def _refresh (s : Session) (env : Env) (w : World) :
    List Event × Except Err Session :=
  match s.config.refresh_token with
  | none => ([], Except.error (Err.keyError "refresh_token"))
  | some rt =>
    let ev := [Event.tokenPost (refreshGrantData s.config rt)]
    match env.refreshResponse with
    | Except.error _ => (ev, Except.error Err.transportError)
    | Except.ok resp =>
      match resp.access_token with
      | none => (ev, Except.error (Err.keyError "access_token"))
      | some tok =>
        match resp.id_token with
        | none => (ev, Except.error (Err.keyError "id_token"))
        | some idt =>
          match resp.expires_in with
          | none => (ev, Except.error (Err.keyError "expires_in"))
          | some ei =>
            (ev, Except.ok
              { config := { s.config with
                  access_token := some tok,
                  id_token := some idt,
                  token_expiration := some (w.now + (ei - 60)) },
                authHeader := some ("Bearer " ++ tok) })

/-- The tail of `_request` (source lines 101-108): issue the HTTP request on
the session transport; on a falsy response (`status >= 400`) log
`[status] reason` and raise `ApiException` with that message; a
transport-level exception propagates; otherwise return the raw response. -/
def requestIssue (env : Env) (method path : String)
    (headers params : List (String × String)) (s : Session) (w : World) :
    List Event × Except Err (Session × World × HttpResponse) :=
  let call := Event.httpCall method path headers params
  match env.httpResponse with
  | Except.error _ => ([call], Except.error Err.transportError)
  | Except.ok resp =>
    if resp.ok then
      ([call], Except.ok (s, w, resp))
    else
      let msg := "[" ++ toString resp.status ++ "] " ++ resp.reason
      ([call, Event.logError msg], Except.error (Err.apiException msg))

/-- Source lines 92-95 of `_request`: if `refresh_token` is not in the config,
read the cache file (`FileNotFoundError` if it is absent) and adopt its
`refresh_token` entry (`KeyError` if the record lacks one). -/
def loadRefreshToken (s : Session) (w1 : World) :
    List Event × Except Err Session :=
  match s.config.refresh_token with
  | some _ => ([], Except.ok s)
  | none =>
    match w1.cache with
    | none => ([], Except.error Err.fileNotFound)
    | some tok =>
      match tok.refresh_token with
      | none => ([Event.cacheRead], Except.error (Err.keyError "refresh_token"))
      | some rt =>
        ([Event.cacheRead],
         Except.ok { s with config := { s.config with refresh_token := some rt } })

/-- Source line 98 of `_request`:
`'access_token' not in self.config or datetime.now() >= self.config['token_expiration']`.
The Python `or` short-circuits, so a missing `token_expiration` only raises
`KeyError` when `access_token` is present. -/
def needRefreshCheck (s2 : Session) (w1 : World) : Except Err Bool :=
  match s2.config.access_token with
  | none => Except.ok true
  | some _ =>
    match s2.config.token_expiration with
    | none => Except.error (Err.keyError "token_expiration")
    | some texp => Except.ok (decide (texp ≤ w1.now))

/-- `TradeStation._request`, the gateway.  Strictly in source order:
1. if `token_cache` does not exist, run `_authenticate`;
2. if `refresh_token` is not in the config, load the cache file and adopt
   its `refresh_token` (`loadRefreshToken`);
3. if `access_token` is not in the config, or `now >=
   config['token_expiration']` (`needRefreshCheck`), run `_refresh`;
4. issue the HTTP request and classify the result (`requestIssue`). -/
def _request (s : Session) (env : Env) (w : World) (method path : String)
    (headers : List (String × String) := [])
    (params : List (String × String) := []) :
    List Event × Except Err (Session × World × HttpResponse) :=
  -- check if the refresh token is on file, if not, generate
  let step1 : List Event × Except Err World :=
    if w.cache.isSome then ([], Except.ok w) else _authenticate s env w
  match step1.2 with
  | Except.error e => (step1.1, Except.error e)
  | Except.ok w1 =>
    -- load the refresh token
    let step2 := loadRefreshToken s w1
    match step2.2 with
    | Except.error e => (step1.1 ++ step2.1, Except.error e)
    | Except.ok s2 =>
      -- get access token
      match needRefreshCheck s2 w1 with
      | Except.error e => (step1.1 ++ step2.1, Except.error e)
      | Except.ok true =>
        let step3 := _refresh s2 env w1
        match step3.2 with
        | Except.error e => (step1.1 ++ step2.1 ++ step3.1, Except.error e)
        | Except.ok s3 =>
          let step4 := requestIssue env method path headers params s3 w1
          (step1.1 ++ step2.1 ++ step3.1 ++ step4.1, step4.2)
      | Except.ok false =>
        let step4 := requestIssue env method path headers params s2 w1
        (step1.1 ++ step2.1 ++ step4.1, step4.2)

/-- `TradeStation.brokerage`: `GET base_url + 'brokerage/accounts'`, extended
with `/{account}/{action}` for any action other than `accounts`. -/
def brokerage (s : Session) (env : Env) (w : World) (action : String) :
    List Event × Except Err (Session × World × HttpResponse) :=
  let url := s.config.base_url ++ "brokerage/accounts"
  let url := if action = "accounts" then url
             else url ++ "/" ++ s.config.account ++ "/" ++ action
  _request s env w "GET" url

/-- Python `str(x)` on an optional int argument (`str(None) = "None"`). -/
def pyStrInt : Option Int → String
  | none => "None"
  | some n => toString n

/-- Python `str(x)` on an optional string argument (`str(None) = "None"`). -/
def pyStrStr : Option String → String
  | none => "None"
  | some s => s

/-- The query-parameter dict built inside `get_bars`: stringify the five
optional parameters, then drop every entry whose value is the string
`"None"`. -/
def getBarsParams (interval : Option Int) (unit : Option String)
    (barsback : Option Int) (startdate sessiontemplate : Option String) :
    List (String × String) :=
  let params := [("interval", pyStrInt interval),
                 ("unit", pyStrStr unit),
                 ("barsback", pyStrInt barsback),
                 ("startdate", pyStrStr startdate),
                 ("sessiontemplate", pyStrStr sessiontemplate)]
  params.filter (fun kv => kv.2 ≠ "None")

/-- `TradeStation.get_bars` up to the gateway call:
`GET base_url + 'marketdata/barcharts/' + ticker` with the filtered
parameters.  (The pandas post-processing of the body is out of scope.) -/
def get_bars (s : Session) (env : Env) (w : World) (ticker : String)
    (interval : Option Int) (unit : Option String) (barsback : Option Int)
    (startdate sessiontemplate : Option String) :
    List Event × Except Err (Session × World × HttpResponse) :=
  let url := s.config.base_url ++ "marketdata/barcharts/" ++ ticker
  _request s env w "GET" url []
    (getBarsParams interval unit barsback startdate sessiontemplate)

/-- Python `str.replace("-", "")`: replacing every occurrence of the
one-character pattern `"-"` by the empty string deletes every hyphen. -/
def replaceDashByEmpty (s : String) : String :=
  String.mk (s.data.filter (fun ch => ch ≠ Char.ofNat 45))

/-- `TradeStation.cancel_order`:
`DELETE base_url + 'orderexecution/orders/' + str(order_number).replace("-", "")`.
`order_number` is taken in its string form. -/
def cancel_order (s : Session) (env : Env) (w : World) (order_number : String) :
    List Event × Except Err (Session × World × HttpResponse) :=
  let url := s.config.base_url ++ "orderexecution/orders/" ++
    replaceDashByEmpty order_number
  _request s env w "DELETE" url

/-- `BalanceDetail` sub-object of one balance entry.  Monetary strings are
modelled as the rational numbers they denote (Python parses them with
`float`). -/
structure BalanceDetail where
  InitialMargin : ℚ
  deriving Repr, DecidableEq

/-- One entry of the `Balances` array of the balances response. -/
structure Balance where
  BuyingPower : ℚ
  BalanceDetail : BalanceDetail
  deriving Repr, DecidableEq

/-- The decoded body of `brokerage('balances')`. -/
structure BalancesResponse where
  Balances : List Balance
  deriving Repr, DecidableEq

/-- The decision step of `TradeStation.check_margin` on a decoded balances
response: compare `Balances[0]['BuyingPower']` against
`Balances[0]['BalanceDetail']['InitialMargin']`.  Python raises `IndexError`
on an empty `Balances` array, modelled as `none`. -/
def check_margin (resp : BalancesResponse) : Option Bool :=
  match resp.Balances with
  | [] => none
  | b :: _ => some (decide (b.BuyingPower > b.BalanceDetail.InitialMargin))

/-- Marker of the interactive authorization flow: `_authenticate` is the only
code path that opens the browser. -/
@[simp] def isAuthFlowEvent : Event → Bool
  | Event.browserOpen _ => true
  | _ => false

/-- A token-endpoint POST carrying the `refresh_token` grant: the marker of a
refresh exchange. -/
@[simp] def isRefreshEvent : Event → Bool
  | Event.tokenPost data => decide (data.lookup "grant_type" = some "refresh_token")
  | _ => false

/-- A brokerage HTTP call through the session transport. -/
@[simp] def isHttpCallEvent : Event → Bool
  | Event.httpCall _ _ _ _ => true
  | _ => false

/-- Number of interactive authorization flows in a trace. -/
def countAuthFlows (tr : List Event) : Nat := (tr.filter isAuthFlowEvent).length

/-- Number of refresh exchanges in a trace. -/
def countRefresh (tr : List Event) : Nat := (tr.filter isRefreshEvent).length

/-- Number of brokerage HTTP calls in a trace. -/
def countHttpCalls (tr : List Event) : Nat := (tr.filter isHttpCallEvent).length

/-! ### Shared concrete exemplars (used by witnesses and counterexamples) -/

/-- A concrete session config as `__init__` builds it (paper trading). -/
def cfgEx : Config :=
  { client_id := "CID", secret_key := "SEC", username := "USER",
    account := "ACCT", base_url := "https://sim-api.tradestation.com/v3/",
    return_uri := "http://localhost:3000" }

/-- A concrete well-formed token-endpoint body. -/
def tokenEx : TokenResponse :=
  { access_token := some "AT1", id_token := some "ID1",
    refresh_token := some "RT1", expires_in := some 1200 }

/-- A concrete environment where every exchange succeeds and the brokerage
responds `200 OK`. -/
def envEx : Env :=
  { authCode := "CODE", authResponse := Except.ok tokenEx,
    refreshResponse := Except.ok tokenEx, httpResponse := Except.ok ⟨200, "OK"⟩ }

/-- `cfgEx` after a refresh: holds a refresh token and a still-valid access
token expiring at instant 5000. -/
def cfgReadyEx : Config :=
  { cfgEx with refresh_token := some "RT0", access_token := some "AT0",
               token_expiration := some 5000 }

/-- A session holding a refresh token and a still-valid access token. -/
def sReadyEx : Session :=
  { config := cfgReadyEx, authHeader := some "Bearer AT0" }

/-- A world whose cache file exists and whose clock is before `sReadyEx`'s
token expiration. -/
def wReadyEx : World := { cache := some tokenEx, now := 1000 }

/-! ### Helper lemmas -/

/-- On a session whose cache exists, whose refresh token is known, and whose
access token is present and unexpired, `_request` is exactly the final
issue-and-classify step. -/
lemma request_ready (s : Session) (env : Env) (w : World) (method path : String)
    (headers params : List (String × String)) (c : TokenResponse)
    (rt tok : String) (texp : Int)
    (hc : w.cache = some c) (hrt : s.config.refresh_token = some rt)
    (hat : s.config.access_token = some tok)
    (hexp : s.config.token_expiration = some texp) (hnow : w.now < texp) :
    _request s env w method path headers params =
      requestIssue env method path headers params s w := by
  simp [_request, loadRefreshToken, needRefreshCheck, hc, hrt, hat, hexp,
    not_le.mpr hnow]

/-- A session that knows a refresh token but has no access token yet. -/
def sTokenOnlyEx : Session :=
  { config := { cfgEx with refresh_token := some "RT0" } }

/-! ### Claim theorems -/

/-- C4: on a successful refresh, `_refresh` sets `access_token` and `id_token`
from the token-endpoint response, sets `token_expiration` to the current
instant plus `expires_in` seconds minus 60 seconds, and sets the shared HTTP
transport's default Authorization header to `"Bearer "` followed by the new
access token. -/
theorem C4_refresh_sets_token_state (s : Session) (env : Env) (w : World)
    (rt tok idt : String) (ei : Int) (resp : TokenResponse)
    (hrt : s.config.refresh_token = some rt)
    (hresp : env.refreshResponse = Except.ok resp)
    (ha : resp.access_token = some tok) (hi : resp.id_token = some idt)
    (he : resp.expires_in = some ei) :
    ∃ s2, (_refresh s env w).2 = Except.ok s2 ∧
      s2.config.access_token = some tok ∧
      s2.config.id_token = some idt ∧
      s2.config.token_expiration = some (w.now + ei - 60) ∧
      s2.authHeader = some ("Bearer " ++ tok) := by
  simp only [_refresh, hrt, hresp, ha, hi, he]
  refine ⟨_, rfl, rfl, rfl, ?_, rfl⟩
  rw [Int.add_sub_assoc]

/-- Witness for C4 at a concrete session, environment, and instant. -/
theorem C4_witness :
    ∃ s2, (_refresh sTokenOnlyEx envEx wReadyEx).2 = Except.ok s2 ∧
      s2.config.access_token = some "AT1" ∧
      s2.config.id_token = some "ID1" ∧
      s2.config.token_expiration = some (wReadyEx.now + 1200 - 60) ∧
      s2.authHeader = some ("Bearer " ++ "AT1") :=
  C4_refresh_sets_token_state sTokenOnlyEx envEx wReadyEx "RT0" "AT1" "ID1"
    1200 tokenEx rfl rfl rfl rfl rfl

/-- C8: on a balances response whose `Balances` array is nonempty,
`check_margin` returns `true` exactly when the first entry's `BuyingPower` is
strictly greater than its `BalanceDetail.InitialMargin`, and `false` exactly
when `BuyingPower` is less than or equal to `InitialMargin`. -/
theorem C8_check_margin_boundary (resp : BalancesResponse) (b : Balance)
    (rest : List Balance) (h : resp.Balances = b :: rest) :
    (check_margin resp = some true ↔ b.BalanceDetail.InitialMargin < b.BuyingPower) ∧
    (check_margin resp = some false ↔ b.BuyingPower ≤ b.BalanceDetail.InitialMargin) := by
  constructor <;> simp [check_margin, h, not_lt]

/-- Witness for C8 at the spec's example numbers: buying power 10000.00
against initial margin 9999.99 yields `true`; buying power 5000.00 against
initial margin 5000.00 yields `false`. -/
theorem C8_witness :
    check_margin ⟨[⟨10000, ⟨(9999.99 : ℚ)⟩⟩]⟩ = some true ∧
    check_margin ⟨[⟨5000, ⟨(5000 : ℚ)⟩⟩]⟩ = some false :=
  ⟨(C8_check_margin_boundary _ _ _ rfl).1.mpr (by norm_num),
   (C8_check_margin_boundary _ _ _ rfl).2.mpr (by norm_num)⟩

/-- C9: on a ready session, `cancel_order` issues a DELETE whose path is the
base URL followed by `orderexecution/orders/` followed by the order number
with every hyphen removed. -/
theorem C9_cancel_order_path (s : Session) (env : Env) (w : World)
    (order_number : String) (c : TokenResponse) (rt tok : String) (texp : Int)
    (hc : w.cache = some c) (hrt : s.config.refresh_token = some rt)
    (hat : s.config.access_token = some tok)
    (hexp : s.config.token_expiration = some texp) (hnow : w.now < texp) :
    ∃ rest, (cancel_order s env w order_number).1 =
      Event.httpCall "DELETE"
        (s.config.base_url ++ "orderexecution/orders/" ++
          replaceDashByEmpty order_number) [] [] :: rest := by
  unfold cancel_order
  rw [request_ready s env w _ _ _ _ c rt tok texp hc hrt hat hexp hnow]
  unfold requestIssue
  rcases env.httpResponse with _ | resp
  · exact ⟨[], rfl⟩
  · by_cases hok : resp.ok
    · exact ⟨[], by simp [hok]⟩
    · exact ⟨[Event.logError ("[" ++ toString resp.status ++ "] " ++ resp.reason)],
        by simp [hok]⟩

/-- Witness for C9 at the spec's example: order number `"123-456-789"` is
sanitized to `"123456789"` and DELETEd. -/
theorem C9_witness :
    (replaceDashByEmpty "123-456-789" = "123456789") ∧
    ∃ rest, (cancel_order sReadyEx envEx wReadyEx "123-456-789").1 =
      Event.httpCall "DELETE"
        (sReadyEx.config.base_url ++ "orderexecution/orders/" ++
          replaceDashByEmpty "123-456-789") [] [] :: rest :=
  ⟨by decide, C9_cancel_order_path sReadyEx envEx wReadyEx "123-456-789" tokenEx
    "RT0" "AT0" 5000 rfl rfl rfl rfl (by decide)⟩

/-- C10: on a ready session, `get_bars` sends exactly the query parameters
whose stringified value differs from the string `"None"`: a pair `(k, v)` is
among the outgoing parameters iff it is one of the five stringified
parameters and `v ≠ "None"` (so an unset parameter, or one explicitly set to
the string `"None"`, is silently dropped). -/
theorem C10_get_bars_param_filter (s : Session) (env : Env) (w : World)
    (ticker : String) (interval barsback : Option Int)
    (unit startdate sessiontemplate : Option String)
    (c : TokenResponse) (rt tok : String) (texp : Int)
    (hc : w.cache = some c) (hrt : s.config.refresh_token = some rt)
    (hat : s.config.access_token = some tok)
    (hexp : s.config.token_expiration = some texp) (hnow : w.now < texp) :
    (∃ rest,
      (get_bars s env w ticker interval unit barsback startdate sessiontemplate).1 =
        Event.httpCall "GET" (s.config.base_url ++ "marketdata/barcharts/" ++ ticker)
          [] (getBarsParams interval unit barsback startdate sessiontemplate) :: rest) ∧
    (∀ k v, (k, v) ∈ getBarsParams interval unit barsback startdate sessiontemplate ↔
      ((k, v) ∈ [("interval", pyStrInt interval), ("unit", pyStrStr unit),
                 ("barsback", pyStrInt barsback), ("startdate", pyStrStr startdate),
                 ("sessiontemplate", pyStrStr sessiontemplate)] ∧ v ≠ "None")) := by
  constructor
  · unfold get_bars
    rw [request_ready s env w _ _ _ _ c rt tok texp hc hrt hat hexp hnow]
    unfold requestIssue
    rcases env.httpResponse with _ | resp
    · exact ⟨[], rfl⟩
    · by_cases hok : resp.ok
      · exact ⟨[], by simp [hok]⟩
      · exact ⟨[Event.logError ("[" ++ toString resp.status ++ "] " ++ resp.reason)],
          by simp [hok]⟩
  · intro k v
    simp [getBarsParams, List.mem_filter]

/-- Witness for C10 at the spec's scenario: `get_bars("AAPL", interval=5,
unit="Minute", barsback=10)` with `startdate` and `sessiontemplate` unset
sends exactly the three set parameters. -/
theorem C10_witness :
    (getBarsParams (some 5) (some "Minute") (some 10) none none =
      [("interval", "5"), ("unit", "Minute"), ("barsback", "10")]) ∧
    (∃ rest,
      (get_bars sReadyEx envEx wReadyEx "AAPL" (some 5) (some "Minute") (some 10)
          none none).1 =
        Event.httpCall "GET"
          (sReadyEx.config.base_url ++ "marketdata/barcharts/" ++ "AAPL")
          [] (getBarsParams (some 5) (some "Minute") (some 10) none none) :: rest) ∧
    (∀ k v, (k, v) ∈ getBarsParams (some 5) (some "Minute") (some 10) none none ↔
      ((k, v) ∈ [("interval", pyStrInt (some 5)), ("unit", pyStrStr (some "Minute")),
                 ("barsback", pyStrInt (some 10)), ("startdate", pyStrStr none),
                 ("sessiontemplate", pyStrStr none)] ∧ v ≠ "None")) :=
  ⟨rfl, C10_get_bars_param_filter sReadyEx envEx wReadyEx "AAPL" (some 5)
    (some 10) (some "Minute") none none tokenEx "RT0" "AT0" 5000
    rfl rfl rfl rfl (by decide)⟩

lemma countAuthFlows_append (a b : List Event) :
    countAuthFlows (a ++ b) = countAuthFlows a + countAuthFlows b := by
  simp [countAuthFlows]

lemma countRefresh_append (a b : List Event) :
    countRefresh (a ++ b) = countRefresh a + countRefresh b := by
  simp [countRefresh]

lemma countHttpCalls_append (a b : List Event) :
    countHttpCalls (a ++ b) = countHttpCalls a + countHttpCalls b := by
  simp [countHttpCalls]

@[simp] lemma countAuthFlows_cons (e : Event) (tr : List Event) :
    countAuthFlows (e :: tr) =
      countAuthFlows tr + (if isAuthFlowEvent e then 1 else 0) := by
  simp only [countAuthFlows, List.filter_cons]
  split <;> simp

@[simp] lemma countRefresh_cons (e : Event) (tr : List Event) :
    countRefresh (e :: tr) =
      countRefresh tr + (if isRefreshEvent e then 1 else 0) := by
  simp only [countRefresh, List.filter_cons]
  split <;> simp

@[simp] lemma countHttpCalls_cons (e : Event) (tr : List Event) :
    countHttpCalls (e :: tr) =
      countHttpCalls tr + (if isHttpCallEvent e then 1 else 0) := by
  simp only [countHttpCalls, List.filter_cons]
  split <;> simp

@[simp] lemma countAuthFlows_nil : countAuthFlows [] = 0 := rfl

@[simp] lemma countRefresh_nil : countRefresh [] = 0 := rfl

@[simp] lemma countHttpCalls_nil : countHttpCalls [] = 0 := rfl

@[simp] lemma countAuthFlows_cacheRead : countAuthFlows [Event.cacheRead] = 0 := rfl

@[simp] lemma countRefresh_cacheRead : countRefresh [Event.cacheRead] = 0 := rfl

@[simp] lemma countHttpCalls_cacheRead : countHttpCalls [Event.cacheRead] = 0 := rfl

/-- `_authenticate` performs exactly one interactive flow. -/
@[simp] lemma authenticate_countAuth (s : Session) (env : Env) (w : World) :
    countAuthFlows (_authenticate s env w).1 = 1 := by
  unfold _authenticate
  rcases env.authResponse with _ | ar <;>
    simp [countAuthFlows, isAuthFlowEvent, authGrantData]

/-- `_authenticate` performs no refresh exchange. -/
@[simp] lemma authenticate_countRefresh (s : Session) (env : Env) (w : World) :
    countRefresh (_authenticate s env w).1 = 0 := by
  unfold _authenticate
  rcases env.authResponse with _ | ar <;>
    simp [countRefresh, isRefreshEvent, authGrantData]

/-- `_authenticate` makes no brokerage HTTP call. -/
@[simp] lemma authenticate_countHttp (s : Session) (env : Env) (w : World) :
    countHttpCalls (_authenticate s env w).1 = 0 := by
  unfold _authenticate
  rcases env.authResponse with _ | ar <;>
    simp [countHttpCalls, isHttpCallEvent, authGrantData]

/-- `_refresh` never opens the browser. -/
@[simp] lemma refresh_countAuth (s : Session) (env : Env) (w : World) :
    countAuthFlows (_refresh s env w).1 = 0 := by
  unfold _refresh
  (repeat' split) <;>
    simp [countAuthFlows, isAuthFlowEvent, refreshGrantData]

/-- `_refresh` makes no brokerage HTTP call. -/
@[simp] lemma refresh_countHttp (s : Session) (env : Env) (w : World) :
    countHttpCalls (_refresh s env w).1 = 0 := by
  unfold _refresh
  (repeat' split) <;>
    simp [countHttpCalls, isHttpCallEvent, refreshGrantData]

/-- `_refresh` POSTs the refresh grant at most once. -/
lemma refresh_countRefresh_le (s : Session) (env : Env) (w : World) :
    countRefresh (_refresh s env w).1 ≤ 1 := by
  unfold _refresh
  (repeat' split) <;>
    simp [countRefresh, isRefreshEvent, refreshGrantData]

/-- When the session knows a refresh token, `_refresh` POSTs the refresh grant
exactly once. -/
lemma refresh_countRefresh_one (s : Session) (env : Env) (w : World) (rt : String)
    (hrt : s.config.refresh_token = some rt) :
    countRefresh (_refresh s env w).1 = 1 := by
  unfold _refresh
  rw [hrt]
  (repeat' split) <;> simp_all [countRefresh, isRefreshEvent, refreshGrantData]

/-- The issue step never opens the browser. -/
@[simp] lemma requestIssue_countAuth (env : Env) (method path : String)
    (headers params : List (String × String)) (s : Session) (w : World) :
    countAuthFlows (requestIssue env method path headers params s w).1 = 0 := by
  unfold requestIssue
  (repeat' split) <;> simp [countAuthFlows, isAuthFlowEvent]

/-- The issue step performs no refresh exchange. -/
@[simp] lemma requestIssue_countRefresh (env : Env) (method path : String)
    (headers params : List (String × String)) (s : Session) (w : World) :
    countRefresh (requestIssue env method path headers params s w).1 = 0 := by
  unfold requestIssue
  (repeat' split) <;> simp [countRefresh, isRefreshEvent]

/-- The issue step makes exactly one brokerage HTTP call. -/
@[simp] lemma requestIssue_countHttp (env : Env) (method path : String)
    (headers params : List (String × String)) (s : Session) (w : World) :
    countHttpCalls (requestIssue env method path headers params s w).1 = 1 := by
  unfold requestIssue
  (repeat' split) <;> simp [countHttpCalls, isHttpCallEvent]

/-- The cache-load step never opens the browser. -/
@[simp] lemma loadRefreshToken_countAuth (s : Session) (w1 : World) :
    countAuthFlows (loadRefreshToken s w1).1 = 0 := by
  unfold loadRefreshToken
  (repeat' split) <;> simp

/-- The cache-load step performs no refresh exchange. -/
@[simp] lemma loadRefreshToken_countRefresh (s : Session) (w1 : World) :
    countRefresh (loadRefreshToken s w1).1 = 0 := by
  unfold loadRefreshToken
  (repeat' split) <;> simp

/-- The cache-load step makes no brokerage HTTP call. -/
@[simp] lemma loadRefreshToken_countHttp (s : Session) (w1 : World) :
    countHttpCalls (loadRefreshToken s w1).1 = 0 := by
  unfold loadRefreshToken
  (repeat' split) <;> simp

/-- When the session already knows a refresh token, the cache-load step is a
no-op. -/
lemma loadRefreshToken_known (s : Session) (w1 : World) (rt : String)
    (hrt : s.config.refresh_token = some rt) :
    loadRefreshToken s w1 = ([], Except.ok s) := by
  simp [loadRefreshToken, hrt]

/-- A successful cache-load step leaves `access_token` and `token_expiration`
untouched and yields a session knowing a refresh token. -/
lemma loadRefreshToken_ok_inv (s : Session) (w1 : World) (s2 : Session)
    (h : (loadRefreshToken s w1).2 = Except.ok s2) :
    s2.config.access_token = s.config.access_token ∧
    s2.config.token_expiration = s.config.token_expiration ∧
    s2.config.refresh_token.isSome = true := by
  unfold loadRefreshToken at h
  (repeat' split at h) <;> simp_all <;> subst h <;> simp_all

/-- The expiry check passes exactly under the claim's condition: no access
token, or an expiration instant at/before now. -/
lemma needRefreshCheck_true (s2 : Session) (w1 : World)
    (h : s2.config.access_token = none ∨
      ∃ texp, s2.config.token_expiration = some texp ∧ texp ≤ w1.now) :
    needRefreshCheck s2 w1 = Except.ok true := by
  rcases hat : s2.config.access_token with _ | a
  · simp [needRefreshCheck, hat]
  · rcases h with hn | ⟨texp, hexp, hle⟩
    · rw [hat] at hn
      cases hn
    · simp [needRefreshCheck, hat, hexp, hle]

/-- Inversion of a negative expiry check: an access token is present and its
expiration lies strictly in the future. -/
lemma needRefreshCheck_false_inv (s2 : Session) (w1 : World)
    (h : needRefreshCheck s2 w1 = Except.ok false) :
    ∃ a texp, s2.config.access_token = some a ∧
      s2.config.token_expiration = some texp ∧ w1.now < texp := by
  unfold needRefreshCheck at h
  (repeat' split at h) <;> simp_all

/-- Total characterization of the refresh exchange count: the POST is made
exactly when the session knows a refresh token. -/
@[simp] lemma refresh_countRefresh (s : Session) (env : Env) (w : World) :
    countRefresh (_refresh s env w).1 =
      if s.config.refresh_token.isSome then 1 else 0 := by
  unfold _refresh
  (repeat' split) <;> simp_all [countRefresh, isRefreshEvent, refreshGrantData]

/-- Inversion of a successful refresh: the session knew a refresh token, the
body carried all three fields, and the resulting session holds the new access
token with expiration `now + (expires_in - 60)`. -/
lemma refresh_ok_inv (s : Session) (env : Env) (w : World) (s2 : Session)
    (h : (_refresh s env w).2 = Except.ok s2) :
    ∃ rt r tok idt ei,
      s.config.refresh_token = some rt ∧
      env.refreshResponse = Except.ok r ∧
      r.access_token = some tok ∧ r.id_token = some idt ∧ r.expires_in = some ei ∧
      s2.config.access_token = some tok ∧
      s2.config.token_expiration = some (w.now + (ei - 60)) ∧
      s2.authHeader = some ("Bearer " ++ tok) ∧
      (_refresh s env w).1 = [Event.tokenPost (refreshGrantData s.config rt)] := by
  rcases hrt : s.config.refresh_token with _ | rt
  · simp [_refresh, hrt] at h
  · rcases hrr : env.refreshResponse with u | r
    · simp [_refresh, hrt, hrr] at h
    · rcases hra : r.access_token with _ | tok
      · simp [_refresh, hrt, hrr, hra] at h
      · rcases hri : r.id_token with _ | idt
        · simp [_refresh, hrt, hrr, hra, hri] at h
        · rcases hre : r.expires_in with _ | ei
          · simp [_refresh, hrt, hrr, hra, hri, hre] at h
          · simp only [_refresh, hrt, hrr, hra, hri, hre, Except.ok.injEq] at h
            subst h
            exact ⟨rt, r, tok, idt, ei, rfl, rfl, hra, hri, hre, rfl, rfl, rfl,
              by simp [_refresh, hrt, hrr, hra, hri, hre]⟩

/-- Inversion of a successful issue step: the returned session is the one the
step was entered with, and the trace is the single brokerage call. -/
lemma requestIssue_ok_inv (env : Env) (method path : String)
    (headers params : List (String × String)) (s : Session) (w : World)
    (out : Session × World × HttpResponse)
    (h : (requestIssue env method path headers params s w).2 = Except.ok out) :
    out.1 = s ∧
    (requestIssue env method path headers params s w).1 =
      [Event.httpCall method path headers params] := by
  unfold requestIssue at h ⊢
  (repeat' split at h) <;> (try cases h) <;> simp_all

/-- C5 counterexample: on a token-endpoint body carrying no tokens (an OAuth
error body, as the endpoint returns on a failed authorization-code exchange),
`_authenticate` still writes the cache and raises no error, so the written
record lacks `refresh_token`. -/
theorem C5_counterexample :
    (_authenticate { config := cfgEx }
        { authCode := "BADCODE",
          authResponse := Except.ok ⟨none, none, none, none⟩,
          refreshResponse := Except.error (),
          httpResponse := Except.error () }
        { cache := none, now := 0 }).2 =
      Except.ok { cache := some ⟨none, none, none, none⟩, now := 0 } ∧
    (⟨none, none, none, none⟩ : TokenResponse).refresh_token = none := by
  constructor <;> rfl

/-- C5 amended: `_authenticate` performs no success check.  Whenever the
token-endpoint POST yields a JSON body it persists that body verbatim to the
cache (overwriting any prior record) and raises nothing — so the written
record contains `refresh_token` exactly when the response body did.  On a
transport-level failure the transport exception propagates and the cache is
not written. -/
theorem C5_authenticate_caches_unconditionally (s : Session) (env : Env) (w : World) :
    (∀ resp, env.authResponse = Except.ok resp →
      _authenticate s env w =
        ([Event.browserOpen (authorizeUrl s.config),
          Event.tokenPost (authGrantData s.config env.authCode),
          Event.cacheWrite resp],
         Except.ok { w with cache := some resp })) ∧
    (env.authResponse = Except.error () →
      _authenticate s env w =
        ([Event.browserOpen (authorizeUrl s.config),
          Event.tokenPost (authGrantData s.config env.authCode)],
         Except.error Err.transportError)) := by
  constructor
  · intro resp h
    simp [_authenticate, h]
  · intro h
    simp [_authenticate, h]

/-- Witness for C5 (amended) at a concrete successful exchange. -/
theorem C5_witness :
    _authenticate { config := cfgEx } envEx { cache := none, now := 0 } =
      ([Event.browserOpen (authorizeUrl cfgEx),
        Event.tokenPost (authGrantData cfgEx "CODE"),
        Event.cacheWrite tokenEx],
       Except.ok { cache := some tokenEx, now := 0 }) :=
  (C5_authenticate_caches_unconditionally { config := cfgEx } envEx
    { cache := none, now := 0 }).1 tokenEx rfl

/-- C3 counterexample: a session that already knows a refresh token, facing a
world whose cache file is absent, still runs the interactive authorization
flow on the next gateway call. -/
theorem C3_counterexample :
    sTokenOnlyEx.config.refresh_token = some "RT0" ∧
    countAuthFlows (_request sTokenOnlyEx envEx { cache := none, now := 0 }
      "GET" "url" [] []).1 = 1 := by
  constructor <;> rfl

/-- C3 amended: `_request` triggers the interactive authorization flow exactly
when no cached token record exists on disk, regardless of whether the session
already knows a `refresh_token`; in particular, once the cache file exists,
no call to `_request` runs the interactive authorization. -/
theorem C3_auth_iff_cache_missing (s : Session) (env : Env) (w : World)
    (method path : String) (headers params : List (String × String)) :
    countAuthFlows (_request s env w method path headers params).1 =
      if w.cache.isSome then 0 else 1 := by
  simp only [_request]
  (repeat' split) <;> simp_all [countAuthFlows_append]

/-- C2: starting with no cache file and no in-memory refresh token (and hence
no access token), a gateway call performs exactly one interactive
authorization flow, adopts the refresh token `rt` that the flow cached, then
performs exactly one refresh, and only then issues the brokerage HTTP
request. -/
theorem C2_bootstrap (s : Session) (env : Env) (w : World) (method path : String)
    (headers params : List (String × String)) (ar rr : TokenResponse)
    (rt tok idt : String) (ei : Int)
    (hc : w.cache = none) (hrt : s.config.refresh_token = none)
    (hat : s.config.access_token = none)
    (har : env.authResponse = Except.ok ar) (hart : ar.refresh_token = some rt)
    (hrr : env.refreshResponse = Except.ok rr)
    (hra : rr.access_token = some tok) (hri : rr.id_token = some idt)
    (hre : rr.expires_in = some ei) :
    (∃ rest, (_request s env w method path headers params).1 =
      Event.browserOpen (authorizeUrl s.config) ::
      Event.tokenPost (authGrantData s.config env.authCode) ::
      Event.cacheWrite ar ::
      Event.cacheRead ::
      Event.tokenPost [("grant_type", "refresh_token"),
        ("client_id", s.config.client_id),
        ("client_secret", s.config.secret_key),
        ("refresh_token", rt)] ::
      Event.httpCall method path headers params :: rest) ∧
    countAuthFlows (_request s env w method path headers params).1 = 1 ∧
    countRefresh (_request s env w method path headers params).1 = 1 ∧
    countHttpCalls (_request s env w method path headers params).1 = 1 := by
  have htr : ∃ rest, (_request s env w method path headers params).1 =
      Event.browserOpen (authorizeUrl s.config) ::
      Event.tokenPost (authGrantData s.config env.authCode) ::
      Event.cacheWrite ar ::
      Event.cacheRead ::
      Event.tokenPost [("grant_type", "refresh_token"),
        ("client_id", s.config.client_id),
        ("client_secret", s.config.secret_key),
        ("refresh_token", rt)] ::
      Event.httpCall method path headers params :: rest ∧
      countAuthFlows rest = 0 ∧ countRefresh rest = 0 ∧ countHttpCalls rest = 0 := by
    rcases hh : env.httpResponse with u | resp
    · exact ⟨[], by simp [_request, _authenticate, _refresh, requestIssue, loadRefreshToken,
        needRefreshCheck, hc, hrt, hat, har, hart, hrr, hra, hri, hre, hh,
        refreshGrantData], rfl, rfl, rfl⟩
    · by_cases hok : resp.ok
      · exact ⟨[], by simp [_request, _authenticate, _refresh, requestIssue, loadRefreshToken,
          needRefreshCheck, hc, hrt, hat, har, hart, hrr, hra, hri, hre, hh, hok,
          refreshGrantData], rfl, rfl, rfl⟩
      · refine ⟨[Event.logError ("[" ++ toString resp.status ++ "] " ++ resp.reason)],
          by simp [_request, _authenticate, _refresh, requestIssue, loadRefreshToken,
            needRefreshCheck, hc, hrt, hat, har, hart, hrr, hra, hri, hre, hh, hok,
            refreshGrantData], ?_, ?_, ?_⟩ <;>
          simp
  obtain ⟨rest, htr, hca, hcr, hch⟩ := htr
  refine ⟨⟨rest, htr⟩, ?_, ?_, ?_⟩ <;> rw [htr] <;>
    simp [hca, hcr, hch, List.lookup]

/-- Witness for C2 at a fully concrete bootstrap run. -/
theorem C2_witness :
    (∃ rest, (_request { config := cfgEx } envEx { cache := none, now := 1000 }
        "GET" "url" [] []).1 =
      Event.browserOpen (authorizeUrl cfgEx) ::
      Event.tokenPost (authGrantData cfgEx "CODE") ::
      Event.cacheWrite tokenEx ::
      Event.cacheRead ::
      Event.tokenPost [("grant_type", "refresh_token"),
        ("client_id", cfgEx.client_id),
        ("client_secret", cfgEx.secret_key),
        ("refresh_token", "RT1")] ::
      Event.httpCall "GET" "url" [] [] :: rest) ∧
    countAuthFlows (_request { config := cfgEx } envEx { cache := none, now := 1000 }
      "GET" "url" [] []).1 = 1 ∧
    countRefresh (_request { config := cfgEx } envEx { cache := none, now := 1000 }
      "GET" "url" [] []).1 = 1 ∧
    countHttpCalls (_request { config := cfgEx } envEx { cache := none, now := 1000 }
      "GET" "url" [] []).1 = 1 :=
  C2_bootstrap { config := cfgEx } envEx { cache := none, now := 1000 } "GET" "url"
    [] [] tokenEx tokenEx "RT1" "AT1" "ID1" 1200 rfl rfl rfl rfl rfl rfl rfl rfl rfl

/-- C7: when the refresh-token exchange fails — a transport-level failure or a
token-endpoint body without an access token (the shape of every non-success
response) — the refresh flow raises an error (the spec's `AuthRefreshError`,
realized as the raised exception), the gateway call surfaces that same error
to its caller, the exchange is attempted exactly once (no retry), no
interactive authorization is run as a fallback, and no brokerage call is
issued. -/
theorem C7_refresh_failure_surfaces (s : Session) (env : Env) (w : World)
    (method path : String) (headers params : List (String × String))
    (c : TokenResponse) (rt : String)
    (hc : w.cache = some c) (hrt : s.config.refresh_token = some rt)
    (hneed : s.config.access_token = none ∨
      ∃ texp, s.config.token_expiration = some texp ∧ texp ≤ w.now)
    (hbad : env.refreshResponse = Except.error () ∨
      ∃ r, env.refreshResponse = Except.ok r ∧ r.access_token = none) :
    ∃ e, (_refresh s env w).2 = Except.error e ∧
      (_request s env w method path headers params).2 = Except.error e ∧
      countAuthFlows (_request s env w method path headers params).1 = 0 ∧
      countRefresh (_request s env w method path headers params).1 = 1 ∧
      countHttpCalls (_request s env w method path headers params).1 = 0 := by
  have hfail : ∃ e, (_refresh s env w).2 = Except.error e := by
    rcases hbad with hb | ⟨r, hr, hra⟩
    · exact ⟨Err.transportError, by simp [_refresh, hrt, hb]⟩
    · exact ⟨Err.keyError "access_token", by simp [_refresh, hrt, hr, hra]⟩
  obtain ⟨e, he⟩ := hfail
  have hload := loadRefreshToken_known s w rt hrt
  have hcheck := needRefreshCheck_true s w hneed
  have hreq : _request s env w method path headers params =
      (([] : List Event) ++ ([] : List Event) ++ (_refresh s env w).1,
        Except.error e) := by
    simp only [_request, hc, Option.isSome_some, if_true, hload, hcheck, he]
  refine ⟨e, he, ?_, ?_, ?_, ?_⟩ <;> rw [hreq] <;>
    simp [countAuthFlows_append, countRefresh_append, countHttpCalls_append, hrt]

/-- Witness for C7 at a concrete transport failure of the refresh exchange. -/
theorem C7_witness :
    ∃ e, (_refresh sTokenOnlyEx { envEx with refreshResponse := Except.error () }
        wReadyEx).2 = Except.error e ∧
      (_request sTokenOnlyEx { envEx with refreshResponse := Except.error () }
        wReadyEx "GET" "url" [] []).2 = Except.error e ∧
      countAuthFlows (_request sTokenOnlyEx { envEx with refreshResponse := Except.error () }
        wReadyEx "GET" "url" [] []).1 = 0 ∧
      countRefresh (_request sTokenOnlyEx { envEx with refreshResponse := Except.error () }
        wReadyEx "GET" "url" [] []).1 = 1 ∧
      countHttpCalls (_request sTokenOnlyEx { envEx with refreshResponse := Except.error () }
        wReadyEx "GET" "url" [] []).1 = 0 :=
  C7_refresh_failure_surfaces sTokenOnlyEx { envEx with refreshResponse := Except.error () }
    wReadyEx "GET" "url" [] [] tokenEx "RT0" rfl rfl (Or.inl rfl) (Or.inl rfl)

/-- C6 counterexample: a `304 Not Modified` response is non-2xx, yet the
gateway returns it unchanged — no `ApiException` is raised and nothing is
logged, because the source's check (`if not resp`) only fires for statuses
at/above 400. -/
theorem C6_counterexample :
    (304 < 200 ∨ 300 ≤ 304) ∧
    _request sReadyEx { envEx with httpResponse := Except.ok ⟨304, "Not Modified"⟩ }
        wReadyEx "GET" "url" [] [] =
      ([Event.httpCall "GET" "url" [] []],
       Except.ok (sReadyEx, wReadyEx, ⟨304, "Not Modified"⟩)) := by
  exact ⟨by norm_num, rfl⟩

/-- C6 amended: on a ready session, `_request` raises `ApiException` carrying
`"[status] reason"` — after logging that same message — exactly when the
response status is at/above 400 (the transport's falsiness threshold);
2xx and 3xx responses alike are returned unchanged; a transport-level error
propagates as the transport exception, unwrapped and unlogged.  In every case
the trace holds exactly one brokerage call: nothing is retried. -/
theorem C6_status_classification (s : Session) (env : Env) (w : World)
    (method path : String) (headers params : List (String × String))
    (c : TokenResponse) (rt tok : String) (texp : Int)
    (hc : w.cache = some c) (hrt : s.config.refresh_token = some rt)
    (hat : s.config.access_token = some tok)
    (hexp : s.config.token_expiration = some texp) (hnow : w.now < texp) :
    (∀ resp, env.httpResponse = Except.ok resp →
      (400 ≤ resp.status →
        _request s env w method path headers params =
          ([Event.httpCall method path headers params,
            Event.logError ("[" ++ toString resp.status ++ "] " ++ resp.reason)],
           Except.error (Err.apiException
             ("[" ++ toString resp.status ++ "] " ++ resp.reason)))) ∧
      (resp.status < 400 →
        _request s env w method path headers params =
          ([Event.httpCall method path headers params],
           Except.ok (s, w, resp)))) ∧
    (env.httpResponse = Except.error () →
      _request s env w method path headers params =
        ([Event.httpCall method path headers params],
         Except.error Err.transportError)) := by
  rw [request_ready s env w method path headers params c rt tok texp hc hrt hat
    hexp hnow]
  refine ⟨?_, ?_⟩
  · intro resp hresp
    constructor
    · intro hst
      have hok : resp.ok = false := by
        simp only [HttpResponse.ok, decide_eq_false_iff_not, not_lt]
        exact hst
      simp [requestIssue, hresp, hok]
    · intro hst
      have hok : resp.ok = true := by
        simp only [HttpResponse.ok, decide_eq_true_eq]
        exact hst
      simp [requestIssue, hresp, hok]
  · intro hresp
    simp [requestIssue, hresp]

/-- Witness for C6 (amended) at a concrete `404 Not Found`. -/
theorem C6_witness :
    _request sReadyEx { envEx with httpResponse := Except.ok ⟨404, "Not Found"⟩ }
        wReadyEx "GET" "url" [] [] =
      ([Event.httpCall "GET" "url" [] [],
        Event.logError ("[" ++ toString (404 : Nat) ++ "] " ++ "Not Found")],
       Except.error (Err.apiException
         ("[" ++ toString (404 : Nat) ++ "] " ++ "Not Found"))) :=
  ((C6_status_classification sReadyEx
      { envEx with httpResponse := Except.ok ⟨404, "Not Found"⟩ } wReadyEx
      "GET" "url" [] [] tokenEx "RT0" "AT0" 5000 rfl rfl rfl rfl (by decide)).1
    ⟨404, "Not Found"⟩ rfl).1 (by norm_num)

/-- Step 1 of the gateway never changes the clock: whether the cache existed
or `_authenticate` ran, the world it hands on carries the same instant. -/
lemma ensureCache_now (s : Session) (env : Env) (w w1 : World)
    (h : (if w.cache.isSome then (([] : List Event), Except.ok w)
      else _authenticate s env w).2 = Except.ok w1) :
    w1.now = w.now := by
  split at h
  · simp only [Except.ok.injEq] at h
    subst h
    rfl
  · unfold _authenticate at h
    rcases har : env.authResponse with u | ar
    · rw [har] at h
      simp at h
    · rw [har] at h
      simp at h
      subst h
      rfl

/-- C1: on a gateway call that completes successfully, if the session knew no
access token, or the current instant is at/after `token_expiration`, then the
trace ends with the brokerage HTTP call and the events before it contain
exactly one refresh exchange; moreover — provided every `expires_in` the
token endpoint reports exceeds the 60-second safety margin — the session
state used for the brokerage call holds an access token whose
`token_expiration` lies strictly in the future (never past or unset). -/
theorem C1_expiry_triggers_refresh (s : Session) (env : Env) (w : World)
    (method path : String) (headers params : List (String × String))
    (tr : List Event) (out : Session × World × HttpResponse)
    (hrun : _request s env w method path headers params = (tr, Except.ok out))
    (hmargin : ∀ r ei, env.refreshResponse = Except.ok r →
      r.expires_in = some ei → 60 < ei) :
    ((s.config.access_token = none ∨
        ∃ texp, s.config.token_expiration = some texp ∧ texp ≤ w.now) →
      ∃ pre, tr = pre ++ [Event.httpCall method path headers params] ∧
        countRefresh pre = 1) ∧
    (∃ tok texp, out.1.config.access_token = some tok ∧
      out.1.config.token_expiration = some texp ∧ w.now < texp) := by
  simp only [_request] at hrun
  split at hrun
  · exact absurd hrun (by simp)
  · rename_i w1 heq1
    have hnow1 : w1.now = w.now := ensureCache_now s env w w1 heq1
    split at hrun
    · exact absurd hrun (by simp)
    · rename_i s2 heq2
      obtain ⟨hat2, hexp2, hrt2⟩ := loadRefreshToken_ok_inv s w1 s2 heq2
      split at hrun
      · exact absurd hrun (by simp)
      · -- the expiry check fired: the refresh branch
        rename_i heqT
        split at hrun
        · exact absurd hrun (by simp)
        · rename_i s3 heq4
          simp only [Prod.mk.injEq] at hrun
          obtain ⟨htr, hres⟩ := hrun
          obtain ⟨rt3, r, tok, idt, ei, hrt3, hrr3, hra3, hri3, hre3, hs3at,
            hs3exp, hs3hdr, htr3⟩ := refresh_ok_inv s2 env w1 s3 heq4
          obtain ⟨hout1, htr4⟩ :=
            requestIssue_ok_inv env method path headers params s3 w1 out hres
          constructor
          · intro _
            refine ⟨(if w.cache.isSome then (([] : List Event), Except.ok w)
                else _authenticate s env w).1 ++ (loadRefreshToken s w1).1 ++
                (_refresh s2 env w1).1, ?_, ?_⟩
            · rw [← htr, htr4]
            · rw [countRefresh_append, countRefresh_append, htr3]
              have h0 : countRefresh (if w.cache.isSome
                  then (([] : List Event), Except.ok w)
                  else _authenticate s env w).1 = 0 := by
                split <;> simp
              simp [h0, refreshGrantData, List.lookup]
          · refine ⟨tok, w1.now + (ei - 60), ?_, ?_, ?_⟩
            · rw [hout1]
              exact hs3at
            · rw [hout1]
              exact hs3exp
            · have hei := hmargin r ei hrr3 hre3
              omega
      · -- the expiry check passed: no refresh, token already valid
        rename_i heqF
        simp only [Prod.mk.injEq] at hrun
        obtain ⟨htr, hres⟩ := hrun
        obtain ⟨a, texp, hat3, hexp3, hlt⟩ := needRefreshCheck_false_inv s2 w1 heqF
        obtain ⟨hout1, htr4⟩ :=
          requestIssue_ok_inv env method path headers params s2 w1 out hres
        constructor
        · intro hcond
          exfalso
          rcases hcond with hn | ⟨texp2, hexp4, hle⟩
          · rw [hat2, hn] at hat3
            simp at hat3
          · rw [hexp2, hexp4] at hexp3
            simp only [Option.some.injEq] at hexp3
            omega
        · exact ⟨a, texp, by rw [hout1]; exact hat3, by rw [hout1]; exact hexp3,
            by omega⟩

/-- `cfgEx` as `_refresh` leaves it after adopting `tokenEx` at instant 1000:
expiration `1000 + 1200 - 60 = 2140`. -/
def cfgAfterRefreshEx : Config :=
  { cfgEx with refresh_token := some "RT0", access_token := some "AT1",
               id_token := some "ID1", token_expiration := some 2140 }

/-- The session after that refresh. -/
def sAfterRefreshEx : Session :=
  { config := cfgAfterRefreshEx, authHeader := some "Bearer AT1" }

/-- Witness for C1: a session with no access token, a cache on disk, and a
successful refresh at instant 1000 with `expires_in = 1200`. -/
theorem C1_witness :
    ((sTokenOnlyEx.config.access_token = none ∨
        ∃ texp, sTokenOnlyEx.config.token_expiration = some texp ∧
          texp ≤ wReadyEx.now) →
      ∃ pre, [Event.tokenPost [("grant_type", "refresh_token"),
          ("client_id", "CID"), ("client_secret", "SEC"),
          ("refresh_token", "RT0")],
        Event.httpCall "GET" "url" [] []] =
          pre ++ [Event.httpCall "GET" "url" [] []] ∧ countRefresh pre = 1) ∧
    (∃ tok texp,
      (sAfterRefreshEx, wReadyEx,
        (⟨200, "OK"⟩ : HttpResponse)).1.config.access_token = some tok ∧
      (sAfterRefreshEx, wReadyEx,
        (⟨200, "OK"⟩ : HttpResponse)).1.config.token_expiration = some texp ∧
      wReadyEx.now < texp) :=
  C1_expiry_triggers_refresh sTokenOnlyEx envEx wReadyEx "GET" "url" [] []
    [Event.tokenPost [("grant_type", "refresh_token"), ("client_id", "CID"),
        ("client_secret", "SEC"), ("refresh_token", "RT0")],
      Event.httpCall "GET" "url" [] []]
    (sAfterRefreshEx, wReadyEx, ⟨200, "OK"⟩) rfl
    (by
      intro r ei hr he
      simp only [envEx] at hr
      simp only [Except.ok.injEq] at hr
      subst hr
      simp only [tokenEx, Option.some.injEq] at he
      omega)

end TradeStation
